import Mathlib

/-!
Shallow embedding of the Flutter/PDF.js bridge of the ninja-tutor backend
repository: the telemetry/messaging bridge of
`src/pdfjs/web/flutter_bridge.js`, together with the annotation capture
system (`captureAllAnnotations`, `captureEditorAnnotations`,
`captureAnnotationData`) and the note re-anchoring engine
(`highlightNotesOnPage`, `findRawOffset`) from the extended bridge variants
kept in `src/UPDATE_CORS_FOR_CUSTOM_DOMAIN.md`.

Times are kept in milliseconds as naturals (JavaScript `Date.now()` values);
`Math.round(ms / 1000)` on a nonnegative value equals `(ms + 500) / 1000` in
natural division, which is how it is embedded here.
-/

/-- Rectangle recorded from `range.getBoundingClientRect()` (coordinates kept
abstract as integers; no claim depends on numeric operations on them). -/
structure Position where
  x : Int
  y : Int
  width : Int
  height : Int
  deriving DecidableEq

/-- A note pushed down by the host, per the data model of the spec:
`{id, page, selectedText, title?, content}`. -/
structure Note where
  id : String
  page : Nat
  selectedText : String
  title : Option String
  content : String
  deriving DecidableEq

/-- Outbound event payloads handed to `sendToFlutter` by the bridge.  The
`timestamp` wrapping added by `sendToFlutter` itself is modelled separately by
`Wrapped`; `bookmarkAdded` carries its own explicit timestamp field exactly as
the source does. -/
inductive OutMsg where
  | pdfReady (totalPages currentPage : Nat)
  | pageChange (previousPage newPage timeSpentSec totalTimeSpentSec activeTimeSpentSec : Nat)
  | idleStateChange (isIdle : Bool)
  | textSelection (text : String) (page : Nat) (position : Option Position)
  | highlight (text : String) (page : Nat) (color : String) (position : Position)
  | bookmarkAdded (page : Nat) (timestamp : Nat)
  | highlightModeChanged (enabled : Bool)
  deriving DecidableEq

/-- Inbound host commands dispatched by the bridge's `message` listener.
`loadDocument` and `displayNotes` appear in the host vocabulary but have no
case in the source's `switch`, so the dispatcher ignores them, as it does any
other unknown type. -/
inductive InMsg where
  | goToPage (page : Nat)
  | setZoom (zoom : Nat)
  | addBookmark
  | toggleHighlightMode
  | loadDocument (url : String)
  | displayNotes (notes : List Note)
  | other (t : String)
  deriving DecidableEq

/-- The bridge's global mutable state: the tracking variables declared at the
top of `flutter_bridge.js` plus the parts of the viewer it mutates
(`PDFViewerApplication.page`, `pdfViewer.currentScale`, the `highlight-mode`
body class).  `idleDeadline` models the pending `setTimeout` of the idle
detector: `some d` means the timeout is scheduled to fire at time `d`. -/
structure SysState where
  currentPage : Nat
  pageStartTime : Nat
  totalTimeSpent : Nat
  activeTimeSpent : Nat
  isIdle : Bool
  idleDeadline : Option Nat
  selectedText : String
  selectedTextPosition : Option Position
  highlightMode : Bool
  viewerPage : Nat
  viewerScale : Nat
  hasViewer : Bool
  deriving DecidableEq

/-- `Math.round(ms / 1000)` for a nonnegative millisecond count. -/
def jsRoundSec (ms : Nat) : Nat := (ms + 500) / 1000

/-- JavaScript's `String.prototype.trim`: strip whitespace from both ends. -/
def trimWs (s : String) : String :=
  ⟨((s.data.dropWhile Char.isWhitespace).reverse.dropWhile Char.isWhitespace).reverse⟩

/-- A message as actually posted to the parent window: the payload wrapped
with the send-time timestamp (`{type, timestamp, ...data}` in the source). -/
structure Wrapped where
  timestamp : Nat
  payload : OutMsg
  deriving DecidableEq

/-- `sendToFlutter`: posts the wrapped message to `window.parent` only when a
parent window exists and differs from the window itself; otherwise the
message is dropped.  Windows are identified by numeric ids; the result is the
list of deliveries performed by the call (always `[]` or a singleton). -/
def sendToFlutter (windowParent : Option Nat) (selfWindow : Nat) (now : Nat)
    (m : OutMsg) : List Wrapped :=
  match windowParent with
  | some p => if p ≠ selfWindow then [{ timestamp := now, payload := m }] else []
  | none => []

/-- The `message` event listener's `switch` over the inbound command type.
Returns the updated state and the payloads passed to `sendToFlutter`. -/
def handleMessage (s : SysState) (now : Nat) (m : InMsg) : SysState × List OutMsg :=
  match m with
  | .goToPage p =>
      if s.hasViewer && s.viewerPage != p then ({ s with viewerPage := p }, [])
      else (s, [])
  | .setZoom z =>
      if s.hasViewer then ({ s with viewerScale := z }, []) else (s, [])
  | .addBookmark => (s, [OutMsg.bookmarkAdded s.currentPage now])
  | .toggleHighlightMode =>
      ({ s with highlightMode := !s.highlightMode },
       [OutMsg.highlightModeChanged (!s.highlightMode)])
  | .loadDocument _ => (s, [])
  | .displayNotes _ => (s, [])
  | .other _ => (s, [])

/-- `onPageChange(pageNum)`: accumulate the dwell into `totalTimeSpent`
unconditionally and into `activeTimeSpent` only when not currently idle, emit
the `pageChange` telemetry sample (fields rounded to whole seconds), then
reset the page-entry timestamp and tracked current page. -/
def onPageChange (s : SysState) (now : Nat) (pageNum : Nat) : SysState × List OutMsg :=
  let timeSpent := now - s.pageStartTime
  let total := s.totalTimeSpent + timeSpent
  let active := if s.isIdle then s.activeTimeSpent else s.activeTimeSpent + timeSpent
  ({ s with totalTimeSpent := total, activeTimeSpent := active,
            currentPage := pageNum, pageStartTime := now },
   [OutMsg.pageChange s.currentPage pageNum (jsRoundSec timeSpent)
      (jsRoundSec total) (jsRoundSec active)])

/-- `resetIdleTimer()`: clear the pending idle timeout, leave the idle state
(emitting `idleStateChange{isIdle:false}` only on a true transition), and
schedule a fresh timeout 10000 ms from now. -/
def resetIdleTimer (s : SysState) (now : Nat) : SysState × List OutMsg :=
  let msgs := if s.isIdle then [OutMsg.idleStateChange false] else []
  ({ s with isIdle := false, idleDeadline := some (now + 10000) }, msgs)

/-- The body of the idle `setTimeout` callback: enter the idle state and emit
`idleStateChange{isIdle:true}`.  The callback does not reschedule itself, so
the deadline becomes `none`. -/
def idleTimeoutFire (s : SysState) : SysState × List OutMsg :=
  ({ s with isIdle := true, idleDeadline := none }, [OutMsg.idleStateChange true])

/-- `onTextSelection()`: read the current selection string, trim it; a
non-empty trimmed selection is stored with its bounding rectangle and
reported; an empty or whitespace-only selection resets the stored selection
and reports an explicit cleared event (`text = ""`, `position = null`). -/
def onTextSelection (s : SysState) (raw : String) (rect : Position) :
    SysState × List OutMsg :=
  let t := trimWs raw
  if t = "" then
    ({ s with selectedText := "", selectedTextPosition := none },
     [OutMsg.textSelection "" s.currentPage none])
  else
    ({ s with selectedText := t, selectedTextPosition := some rect },
     [OutMsg.textSelection t s.currentPage (some rect)])

/-- `createHighlight(text, color)`: bail out unless a non-empty selection and
a recorded position are stored; otherwise emit the `highlight` event and
clear the stored selection (the source also clears the DOM selection ranges,
a pure DOM side effect with no bearing on this state). -/
def createHighlight (s : SysState) (color : String) : SysState × List OutMsg :=
  match s.selectedTextPosition with
  | none => (s, [])
  | some pos =>
      if s.selectedText = "" then (s, [])
      else
        ({ s with selectedText := "", selectedTextPosition := none },
         [OutMsg.highlight s.selectedText s.currentPage color pos])

/-- Events driving the bridge: qualifying user interactions (the five
listeners installed for idle detection), the idle timeout firing, the render
engine's `pagechanging` event, an inbound host message, a selection event and
an external `createHighlight` call. -/
inductive Ev where
  | interact (now : Nat)
  | idleFire (now : Nat)
  | pageChanging (now : Nat) (page : Nat)
  | host (now : Nat) (m : InMsg)
  | select (raw : String) (rect : Position)
  | mkHighlight (color : String)

/-- One event of the single-threaded event loop.  An `idleFire` is effective
only when the pending timeout is scheduled exactly at that instant (a cleared
or rescheduled timeout never fires). -/
def step (s : SysState) : Ev → SysState × List OutMsg
  | .interact now => resetIdleTimer s now
  | .idleFire now => if s.idleDeadline = some now then idleTimeoutFire s else (s, [])
  | .pageChanging now p => onPageChange s now p
  | .host now m => handleMessage s now m
  | .select raw rect => onTextSelection s raw rect
  | .mkHighlight c => createHighlight s c

/-- Run a list of events in order, concatenating everything handed to
`sendToFlutter`. -/
def run (s : SysState) : List Ev → SysState × List OutMsg
  | [] => (s, [])
  | e :: es =>
      let r := step s e
      let r' := run r.1 es
      (r'.1, r.2 ++ r'.2)

/-- The bridge state right after `setupEventListeners()` ran at time 0 on
page 1 of a loaded viewer: counters zeroed, active, the idle timeout armed
for t = 10000. -/
def initState : SysState :=
  { currentPage := 1, pageStartTime := 0, totalTimeSpent := 0, activeTimeSpent := 0,
    isIdle := false, idleDeadline := some 10000,
    selectedText := "", selectedTextPosition := none,
    highlightMode := false, viewerPage := 1, viewerScale := 1, hasViewer := true }

/-- Recognizes `idleStateChange` payloads. -/
def isIdleMsg : OutMsg → Bool
  | .idleStateChange _ => true
  | _ => false

/-- Recognizes `pageChange` telemetry payloads. -/
def isPageChangeMsg : OutMsg → Bool
  | .pageChange _ _ _ _ _ => true
  | _ => false

/-- A `pageChange` sample is well-formed when its active seconds do not
exceed its total seconds; any other message is trivially well-formed. -/
def sampleOk : OutMsg → Prop
  | .pageChange _ _ _ tot act => act ≤ tot
  | _ => True

/-!
## Annotation re-anchoring engine

Embedding of `highlightNotesOnPage` and `findRawOffset` from the extended
bridge variant kept in `src/UPDATE_CORS_FOR_CUSTOM_DOMAIN.md`.  The page's
text layer is a list of text-node strings in document order; the code
normalizes each node separately with `replace(/\s+/g, " ")` and concatenates
the results into `normalizedFullText`, so a whitespace run spanning a node
boundary survives as one space per node.
-/

/-- An element of a page's editor layer: its stable identity, its
`data-editor-type` attribute and its class string. -/
structure AnnotElem where
  elemId : Nat
  typeAttr : Option String
  className : String
  deriving DecidableEq

/-- An `annotation` event shipped to the host. -/
structure CaptureEvent where
  elemId : Nat
  kind : String
  page : Nat
  deriving DecidableEq

/-- `captureAnnotationData`: the emitted event's type is the element's
`data-editor-type` attribute, defaulting to `"unknown"` (the class-string
inference inside `captureAllAnnotations` feeds only its console log). -/
def captureAnnotationData (page : Nat) (e : AnnotElem) : CaptureEvent :=
  { elemId := e.elemId, kind := e.typeAttr.getD "unknown", page := page }

/-- The per-page loop of `captureAllAnnotations` during one polling tick:
an element whose `data-sent-to-flutter` mark is set is skipped silently;
otherwise it is marked and reported.  Returns the updated marked-set and
the events emitted this tick. -/
def processTick (page : Nat) (seen : List Nat) : List AnnotElem → List Nat × List CaptureEvent
  | [] => (seen, [])
  | e :: es =>
      if e.elemId ∈ seen then processTick page seen es
      else
        let r := processTick page (e.elemId :: seen) es
        (r.1, captureAnnotationData page e :: r.2)

/-- `captureEditorAnnotations`: reports every element of the page's editor
layer, with no mark check and no marking. -/
def captureEditorAnnotations (page : Nat) (elems : List AnnotElem) : List CaptureEvent :=
  elems.map (captureAnnotationData page)

/-- The two observation kinds that feed the capture system: a polling tick
visiting a page's editor layer, and an `annotationeditorlayerrendered`
signal for a page. -/
inductive CaptureEv where
  | poll (page : Nat) (elems : List AnnotElem)
  | layerRendered (page : Nat) (elems : List AnnotElem)

/-- One capture observation: polling goes through the marked-set guard,
a layer-rendered signal re-emits everything unguarded. -/
def captureStep (seen : List Nat) : CaptureEv → List Nat × List CaptureEvent
  | .poll pg elems => processTick pg seen elems
  | .layerRendered pg elems => (seen, captureEditorAnnotations pg elems)

/-- The capture system's lifetime: a sequence of observations threading the
marked-set through, concatenating all emitted events. -/
def runCapture (seen : List Nat) : List CaptureEv → List Nat × List CaptureEvent
  | [] => (seen, [])
  | e :: es =>
      let r := captureStep seen e
      let r' := runCapture r.1 es
      (r'.1, r.2 ++ r'.2)

/-!
## Claims
-/

/-- C7: with no reachable parent context (`window.parent` absent or equal to
the window itself) `sendToFlutter` performs no delivery and, being a total
function, returns to its caller without raising; with a distinct parent the
wrapped message is delivered exactly once per call. -/
theorem sendToFlutter_delivery (wp : Option Nat) (selfWindow now : Nat)
    (m : OutMsg) (p : Nat) :
    (wp = none ∨ wp = some selfWindow → sendToFlutter wp selfWindow now m = [])
    ∧ (wp = some p → p ≠ selfWindow →
        sendToFlutter wp selfWindow now m = [{ timestamp := now, payload := m }]) := by
  constructor
  · rintro (rfl | rfl)
    · rfl
    · simp [sendToFlutter]
  · rintro rfl hne
    simp [sendToFlutter, hne]

/-- Witness for C7 at concrete inputs: no parent or a self-parent drops the
message; a distinct parent delivers it exactly once. -/
theorem sendToFlutter_delivery_example :
    sendToFlutter none 1 5 (OutMsg.idleStateChange true) = []
    ∧ sendToFlutter (some 1) 1 5 (OutMsg.idleStateChange true) = []
    ∧ sendToFlutter (some 2) 1 5 (OutMsg.idleStateChange true)
        = [{ timestamp := 5, payload := OutMsg.idleStateChange true }] :=
  ⟨(sendToFlutter_delivery none 1 5 (OutMsg.idleStateChange true) 2).1 (Or.inl rfl),
   (sendToFlutter_delivery (some 1) 1 5 (OutMsg.idleStateChange true) 2).1 (Or.inr rfl),
   (sendToFlutter_delivery (some 2) 1 5 (OutMsg.idleStateChange true) 2).2 rfl (by decide)⟩

/-- C8: a `goToPage` command whose page equals the viewer's current page is a
complete no-op (no navigation, no message), and any `goToPage` that does
change the viewer's page must have requested a different page. -/
theorem goToPage_no_navigation_when_equal (s : SysState) (now p q : Nat) :
    (s.viewerPage = p → step s (Ev.host now (InMsg.goToPage p)) = (s, []))
    ∧ ((step s (Ev.host now (InMsg.goToPage q))).1.viewerPage ≠ s.viewerPage →
        q ≠ s.viewerPage) := by
  constructor
  · rintro rfl
    simp [step, handleMessage]
  · intro hch
    intro hq
    apply hch
    subst hq
    simp [step, handleMessage]

/-- Witness for C8: from the initial state (viewer on page 1), `goToPage 1`
leaves the state unchanged and emits nothing. -/
theorem goToPage_no_navigation_when_equal_example :
    step initState (Ev.host 7 (InMsg.goToPage 1)) = (initState, []) :=
  (goToPage_no_navigation_when_equal initState 7 1 1).1 rfl

/-- C9: whenever `onTextSelection` runs with an empty or whitespace-only
selection, the stored selection state is reset and an explicit
selection-cleared `textSelection` event (`text = ""`, `position = null`) is
emitted for the current page. -/
theorem onTextSelection_empty_emits_cleared (s : SysState) (raw : String)
    (rect : Position) (h : trimWs raw = "") :
    onTextSelection s raw rect
      = ({ s with selectedText := "", selectedTextPosition := none },
         [OutMsg.textSelection "" s.currentPage none]) := by
  simp [onTextSelection, h]

/-- Witness for C9: a whitespace-only selection on the initial state. -/
theorem onTextSelection_empty_emits_cleared_example :
    onTextSelection initState "  \n " { x := 0, y := 0, width := 0, height := 0 }
      = ({ initState with selectedText := "", selectedTextPosition := none },
         [OutMsg.textSelection "" 1 none]) :=
  onTextSelection_empty_emits_cleared initState "  \n "
    { x := 0, y := 0, width := 0, height := 0 } (by decide)

/-- C10: `createHighlight` emits a `highlight` message iff a non-empty
selection with a recorded position is stored; a successful emit carries the
stored text, page, colour and position and clears the stored selection, so an
immediately following call emits nothing. -/
theorem createHighlight_emit_iff_selection (s : SysState) (c c' : String) :
    ((createHighlight s c).2 ≠ [] ↔
      s.selectedText ≠ "" ∧ s.selectedTextPosition ≠ none)
    ∧ (∀ pos, s.selectedTextPosition = some pos → s.selectedText ≠ "" →
        createHighlight s c
          = ({ s with selectedText := "", selectedTextPosition := none },
             [OutMsg.highlight s.selectedText s.currentPage c pos]))
    ∧ (createHighlight (createHighlight s c).1 c').2 = [] := by
  refine ⟨?_, ?_, ?_⟩
  · cases hpos : s.selectedTextPosition with
    | none => simp [createHighlight, hpos]
    | some pos =>
        by_cases ht : s.selectedText = "" <;> simp [createHighlight, hpos, ht]
  · intro pos hpos ht
    simp [createHighlight, hpos, ht]
  · cases hpos : s.selectedTextPosition with
    | none => simp [createHighlight, hpos]
    | some pos =>
        by_cases ht : s.selectedText = "" <;> simp [createHighlight, hpos, ht]

/-- Witness for C10 at a concrete state holding the selection "hello": the
first call emits the highlight, the second emits nothing. -/
theorem createHighlight_emit_iff_selection_example :
    createHighlight
        { initState with selectedText := "hello",
                         selectedTextPosition := some { x := 1, y := 2, width := 3, height := 4 } }
        "yellow"
      = ({ initState with selectedText := "", selectedTextPosition := none },
         [OutMsg.highlight "hello" 1 "yellow" { x := 1, y := 2, width := 3, height := 4 }])
    ∧ (createHighlight
        (createHighlight
          { initState with selectedText := "hello",
                           selectedTextPosition := some { x := 1, y := 2, width := 3, height := 4 } }
          "yellow").1 "yellow").2 = [] := by
  have h := createHighlight_emit_iff_selection
    { initState with selectedText := "hello",
                     selectedTextPosition := some { x := 1, y := 2, width := 3, height := 4 } }
    "yellow" "yellow"
  exact ⟨h.2.1 { x := 1, y := 2, width := 3, height := 4 } rfl (by decide), h.2.2⟩

/-- C4 counterexample: `toggleHighlightMode` is an inbound command type other
than `addBookmark`, yet processing it twice from the initial state does not
leave the same state as processing it once (the mode flips back), so the
dispatcher's non-`addBookmark` commands are not all idempotent. -/
theorem toggleHighlightMode_not_idempotent :
    (step (step initState (Ev.host 5 InMsg.toggleHighlightMode)).1
        (Ev.host 6 InMsg.toggleHighlightMode)).1
      ≠ (step initState (Ev.host 5 InMsg.toggleHighlightMode)).1 := by
  decide

/-- C4 amended: `goToPage` and `setZoom` are idempotent (a repeated identical
command leaves the state unchanged and emits nothing); `loadDocument`,
`displayNotes` and unknown types are ignored outright; `toggleHighlightMode`
is the second non-idempotent command — every invocation flips the mode and
emits a `highlightModeChanged` with the new value; `addBookmark` emits a new
`bookmarkAdded` with the current page and timestamp on every invocation. -/
theorem host_command_idempotence_profile (s : SysState) (n n' p z : Nat)
    (t u : String) (notes : List Note) :
    (step (step s (Ev.host n (InMsg.goToPage p))).1 (Ev.host n' (InMsg.goToPage p))
        = ((step s (Ev.host n (InMsg.goToPage p))).1, []))
    ∧ (step (step s (Ev.host n (InMsg.setZoom z))).1 (Ev.host n' (InMsg.setZoom z))
        = ((step s (Ev.host n (InMsg.setZoom z))).1, []))
    ∧ (step s (Ev.host n (InMsg.loadDocument u)) = (s, []))
    ∧ (step s (Ev.host n (InMsg.displayNotes notes)) = (s, []))
    ∧ (step s (Ev.host n (InMsg.other t)) = (s, []))
    ∧ ((step s (Ev.host n InMsg.toggleHighlightMode)).1.highlightMode
        = !s.highlightMode)
    ∧ ((step s (Ev.host n InMsg.toggleHighlightMode)).2
        = [OutMsg.highlightModeChanged (!s.highlightMode)])
    ∧ ((step s (Ev.host n InMsg.addBookmark)).2
        = [OutMsg.bookmarkAdded s.currentPage n]) := by
  refine ⟨?_, ?_, rfl, rfl, rfl, rfl, rfl, rfl⟩
  · by_cases hv : s.hasViewer
    · by_cases hp : s.viewerPage = p
      · simp [step, handleMessage, hv, hp]
      · simp [step, handleMessage, hv, hp]
    · simp [step, handleMessage, hv]
  · by_cases hv : s.hasViewer <;> simp [step, handleMessage, hv]

/-- Event trace for the C2 scenario: from boot at t = 0 the idle timeout
fires at t = 10000 (10 quiet seconds), the page switches to page 2 at
t = 10000, the user interacts at t = 13000 (so page 2's visit is idle for
its first 3 seconds), and the page switches to page 3 at t = 22000, ending a
12-second visit of page 2 of which 3 seconds were idle. -/
def c2Events : List Ev :=
  [Ev.idleFire 10000, Ev.pageChanging 10000 2,
   Ev.interact 13000, Ev.pageChanging 22000 3]

/-- C2 counterexample: page 2 is visited for 12 seconds of which the first 3
are idle, yet the `pageChange` sample emitted at the transition carries
`totalTimeSpent = 22` (cumulative, not 12) and `activeTimeSpent = 12` — the
whole dwell was counted as active because the user was not idle at the
moment of the transition; the idle portion is not excluded. -/
theorem pageChange_idle_portion_not_excluded :
    ((run initState c2Events).2.filter isPageChangeMsg).getLast?
        = some (OutMsg.pageChange 2 3 12 22 12)
    ∧ ((run initState c2Events).2.filter isPageChangeMsg).getLast?
        ≠ some (OutMsg.pageChange 2 3 12 12 9) := by
  decide

/-- C2 amended: on a `pagechanging` event the dwell (`now` minus the page
entry time) is added to `totalTimeSpent` unconditionally, while
`activeTimeSpent` receives either the entire dwell (when the tracker is not
idle at the transition) or none of it (when it is idle) — the idle portion
of the dwell is never subtracted, and the emitted sample reports the rounded
cumulative counters. -/
theorem pageChange_all_or_nothing_active_policy (s : SysState) (now p : Nat) :
    (step s (Ev.pageChanging now p)).1.totalTimeSpent
        = s.totalTimeSpent + (now - s.pageStartTime)
    ∧ (step s (Ev.pageChanging now p)).1.activeTimeSpent
        = (if s.isIdle = true then s.activeTimeSpent
           else s.activeTimeSpent + (now - s.pageStartTime))
    ∧ (step s (Ev.pageChanging now p)).2
        = [OutMsg.pageChange s.currentPage p (jsRoundSec (now - s.pageStartTime))
            (jsRoundSec ((step s (Ev.pageChanging now p)).1.totalTimeSpent))
            (jsRoundSec ((step s (Ev.pageChanging now p)).1.activeTimeSpent))] := by
  refine ⟨rfl, ?_, ?_⟩ <;> by_cases h : s.isIdle <;> simp [step, onPageChange, h]

/-- Interaction events processed while the tracker is already active emit no
messages at all (in particular no `idleStateChange`). -/
theorem run_interacts_silent (ts : List Nat) :
    ∀ s : SysState, s.isIdle = false → (run s (ts.map Ev.interact)).2 = [] := by
  induction ts with
  | nil => intro s _; rfl
  | cons a as ih =>
      intro s h
      simp only [List.map_cons, run, step, resetIdleTimer, h]
      simpa using ih _ rfl

/-- C3: from the Active state with the idle timeout armed for instant `d`
(10 seconds after the last qualifying interaction), letting the timeout fire
and then performing any positive number of interactions emits exactly one
`idleStateChange{isIdle:true}` followed by exactly one
`idleStateChange{isIdle:false}`; the interactions beyond the first emit no
further `idleStateChange`. -/
theorem idle_transition_emits_once (s : SysState) (d t : Nat) (ts : List Nat)
    (_hA : s.isIdle = false) (hD : s.idleDeadline = some d) :
    ((run s (Ev.idleFire d :: Ev.interact t :: ts.map Ev.interact)).2.filter isIdleMsg)
      = [OutMsg.idleStateChange true, OutMsg.idleStateChange false] := by
  simp only [run, step, hD, if_pos, idleTimeoutFire, resetIdleTimer]
  rw [run_interacts_silent ts _ rfl]
  simp [isIdleMsg]

/-- Witness for C3: booting at t = 0, the timeout fires at t = 10000 and
three interactions follow; the idle-related output is exactly one
idle-entered and one idle-left message. -/
theorem idle_transition_emits_once_example :
    ((run initState
        (Ev.idleFire 10000 :: Ev.interact 12000 :: [12500, 13000].map Ev.interact)).2.filter
          isIdleMsg)
      = [OutMsg.idleStateChange true, OutMsg.idleStateChange false] :=
  idle_transition_emits_once initState 10000 12000 [12500, 13000] rfl rfl

/-- A single event preserves `activeTimeSpent ≤ totalTimeSpent` and every
message it emits is a well-formed sample. -/
theorem step_preserves_active_le_total (s : SysState) (e : Ev)
    (h : s.activeTimeSpent ≤ s.totalTimeSpent) :
    (step s e).1.activeTimeSpent ≤ (step s e).1.totalTimeSpent
    ∧ ∀ m ∈ (step s e).2, sampleOk m := by
  cases e with
  | interact now =>
      refine ⟨by simpa [step, resetIdleTimer] using h, ?_⟩
      intro m hm
      by_cases hi : s.isIdle
      · simp [step, resetIdleTimer, hi] at hm
        simp [hm, sampleOk]
      · simp [step, resetIdleTimer, hi] at hm
  | idleFire now =>
      by_cases hd : s.idleDeadline = some now
      · refine ⟨by simpa [step, hd, idleTimeoutFire] using h, ?_⟩
        intro m hm
        simp [step, hd, idleTimeoutFire] at hm
        simp [hm, sampleOk]
      · exact ⟨by simpa [step, hd] using h, by simp [step, hd]⟩
  | pageChanging now p =>
      have hle : (if s.isIdle then s.activeTimeSpent
            else s.activeTimeSpent + (now - s.pageStartTime))
          ≤ s.totalTimeSpent + (now - s.pageStartTime) := by
        by_cases hi : s.isIdle
        · simpa [hi] using le_trans h (Nat.le_add_right _ _)
        · simpa [hi] using Nat.add_le_add_right h (now - s.pageStartTime)
      refine ⟨by simpa [step, onPageChange] using hle, ?_⟩
      intro m hm
      simp [step, onPageChange] at hm
      subst hm
      simp only [sampleOk, jsRoundSec]
      exact Nat.div_le_div_right (Nat.add_le_add_right (by simpa using hle) 500)
  | host now m =>
      cases m with
      | goToPage p =>
          by_cases hc : s.hasViewer && s.viewerPage != p
          · exact ⟨by simpa [step, handleMessage, hc] using h,
              by simp [step, handleMessage, hc]⟩
          · exact ⟨by simpa [step, handleMessage, hc] using h,
              by simp [step, handleMessage, hc]⟩
      | setZoom z =>
          by_cases hc : s.hasViewer
          · exact ⟨by simpa [step, handleMessage, hc] using h,
              by simp [step, handleMessage, hc]⟩
          · exact ⟨by simpa [step, handleMessage, hc] using h,
              by simp [step, handleMessage, hc]⟩
      | addBookmark =>
          refine ⟨by simpa [step, handleMessage] using h, ?_⟩
          intro m hm
          simp [step, handleMessage] at hm
          simp [hm, sampleOk]
      | toggleHighlightMode =>
          refine ⟨by simpa [step, handleMessage] using h, ?_⟩
          intro m hm
          simp [step, handleMessage] at hm
          simp [hm, sampleOk]
      | loadDocument u => exact ⟨by simpa [step, handleMessage] using h,
          by simp [step, handleMessage]⟩
      | displayNotes notes => exact ⟨by simpa [step, handleMessage] using h,
          by simp [step, handleMessage]⟩
      | other t => exact ⟨by simpa [step, handleMessage] using h,
          by simp [step, handleMessage]⟩
  | select raw rect =>
      by_cases ht : trimWs raw = ""
      · refine ⟨by simpa [step, onTextSelection, ht] using h, ?_⟩
        intro m hm
        simp [step, onTextSelection, ht] at hm
        simp [hm, sampleOk]
      · refine ⟨by simpa [step, onTextSelection, ht] using h, ?_⟩
        intro m hm
        simp [step, onTextSelection, ht] at hm
        simp [hm, sampleOk]
  | mkHighlight c =>
      cases hpos : s.selectedTextPosition with
      | none => exact ⟨by simpa [step, createHighlight, hpos] using h,
          by simp [step, createHighlight, hpos]⟩
      | some pos =>
          by_cases ht : s.selectedText = ""
          · exact ⟨by simpa [step, createHighlight, hpos, ht] using h,
              by simp [step, createHighlight, hpos, ht]⟩
          · refine ⟨by simpa [step, createHighlight, hpos, ht] using h, ?_⟩
            intro m hm
            simp [step, createHighlight, hpos, ht] at hm
            simp [hm, sampleOk]

/-- C6: from any session state in which accumulated active time does not
exceed accumulated total time, every run of events preserves that invariant
and every emitted `pageChange` sample satisfies
`activeTimeSpent ≤ totalTimeSpent`.  In particular every reachable state
(reached from the boot state, whose counters are both zero) satisfies it. -/
theorem active_le_total_invariant (s : SysState) (evs : List Ev)
    (h : s.activeTimeSpent ≤ s.totalTimeSpent) :
    (run s evs).1.activeTimeSpent ≤ (run s evs).1.totalTimeSpent
    ∧ ∀ m ∈ (run s evs).2, sampleOk m := by
  induction evs generalizing s with
  | nil => exact ⟨h, by simp [run]⟩
  | cons e es ih =>
      have hs := step_preserves_active_le_total s e h
      have hr := ih (step s e).1 hs.1
      refine ⟨by simpa [run] using hr.1, ?_⟩
      intro m hm
      simp only [run, List.mem_append] at hm
      rcases hm with hm | hm
      · exact hs.2 m hm
      · exact hr.2 m hm

/-- Witness for C6 on the concrete boot state and the C2 trace. -/
theorem active_le_total_invariant_example :
    (run initState c2Events).1.activeTimeSpent
      ≤ (run initState c2Events).1.totalTimeSpent :=
  (active_le_total_invariant initState c2Events (by decide)).1

/-- Per-tick accounting for one element identity: an already-captured
element is never re-emitted; any element is emitted at most once within a
tick; the captured-set only grows; and an emitted element ends the tick
captured. -/
theorem processTick_count (pg eid : Nat) :
    ∀ (es : List AnnotElem) (seen : List Nat),
      (eid ∈ seen →
        (processTick pg seen es).2.countP (fun ev => ev.elemId == eid) = 0)
      ∧ (processTick pg seen es).2.countP (fun ev => ev.elemId == eid) ≤ 1
      ∧ (eid ∈ seen → eid ∈ (processTick pg seen es).1)
      ∧ (1 ≤ (processTick pg seen es).2.countP (fun ev => ev.elemId == eid) →
          eid ∈ (processTick pg seen es).1) := by
  intro es
  induction es with
  | nil =>
      intro seen
      exact ⟨fun _ => rfl, Nat.zero_le 1, fun h => h,
        fun h => by simp [processTick] at h⟩
  | cons e es ih =>
      intro seen
      by_cases hm : e.elemId ∈ seen
      · simpa [processTick, hm] using ih seen
      · have ihc := ih (e.elemId :: seen)
        by_cases he : e.elemId = eid
        · subst he
          have h0 := ihc.1 (List.mem_cons_self _ _)
          refine ⟨fun h => absurd h hm, ?_, fun h => absurd h hm, fun _ => ?_⟩
          · simp only [processTick, if_neg hm]
            simp [List.countP_cons, captureAnnotationData, h0]
          · simp only [processTick, if_neg hm]
            exact ihc.2.2.1 (List.mem_cons_self _ _)
        · refine ⟨fun h => ?_, ?_, fun h => ?_, fun h => ?_⟩
          · simp only [processTick, if_neg hm]
            simp [List.countP_cons, captureAnnotationData, he,
              ihc.1 (List.mem_cons_of_mem _ h)]
          · simp only [processTick, if_neg hm]
            simpa [List.countP_cons, captureAnnotationData, he] using ihc.2.1
          · simp only [processTick, if_neg hm]
            exact ihc.2.2.1 (List.mem_cons_of_mem _ h)
          · simp only [processTick, if_neg hm] at h ⊢
            apply ihc.2.2.2
            simpa [List.countP_cons, captureAnnotationData, he] using h

/-- Across a run of polling observations, an element already marked at the
start is never emitted, and one not yet marked is emitted at most once. -/
theorem runCapture_poll_count (eid : Nat) :
    ∀ (polls : List (Nat × List AnnotElem)) (seen : List Nat),
      (runCapture seen (polls.map (fun p => CaptureEv.poll p.1 p.2))).2.countP
          (fun ev => ev.elemId == eid)
        ≤ if eid ∈ seen then 0 else 1 := by
  intro polls
  induction polls with
  | nil =>
      intro seen
      simp [runCapture]
  | cons t ts ih =>
      intro seen
      have htick := processTick_count t.1 eid t.2 seen
      have hrest := ih (processTick t.1 seen t.2).1
      simp only [List.map_cons, runCapture, captureStep, List.countP_append]
      by_cases hs : eid ∈ seen
      · have h1 := htick.1 hs
        have h2 := htick.2.2.1 hs
        simp only [if_pos hs]
        simp only [if_pos h2] at hrest
        omega
      · simp only [if_neg hs]
        by_cases hs' : eid ∈ (processTick t.1 seen t.2).1
        · simp only [if_pos hs'] at hrest
          have := htick.2.1
          omega
        · simp only [if_neg hs'] at hrest
          have h0 : (processTick t.1 seen t.2).2.countP (fun ev => ev.elemId == eid) = 0 := by
            by_contra hne
            exact hs' (htick.2.2.2 (Nat.one_le_iff_ne_zero.mpr hne))
          omega

/-- A marked-and-emitted ink element of page 1's editor layer. -/
def inkElem : AnnotElem :=
  { elemId := 1, typeAttr := some "ink", className := "inkEditor" }

/-- C5 counterexample: a polling tick captures the element (marking it
captured and emitting once), and a single later `annotationeditorlayerrendered`
signal observing the same element emits a second `annotation` event —
`captureEditorAnnotations` never consults the mark — so the element is
reported twice over its lifetime, refuting at-most-once capture. -/
theorem capture_layer_rerender_counterexample :
    ((runCapture []
        [CaptureEv.poll 1 [inkElem], CaptureEv.layerRendered 1 [inkElem]]).2.countP
          (fun ev => ev.elemId == 1) = 2)
    ∧ ¬ ((runCapture []
        [CaptureEv.poll 1 [inkElem], CaptureEv.layerRendered 1 [inkElem]]).2.countP
          (fun ev => ev.elemId == 1) ≤ 1) := by
  decide

/-- C5 amended: across any number of polling ticks, at most one capture
event is emitted per element identity — an element marked captured is never
re-reported by polling; but every `annotationeditorlayerrendered` signal
re-emits an `annotation` event for each element of that page's editor
layer, marks notwithstanding, so layer-rendered observations add one report
per signal. -/
theorem capture_poll_once_layer_every_time (eid : Nat)
    (polls : List (Nat × List AnnotElem)) (pg : Nat) (seen : List Nat)
    (elems : List AnnotElem) :
    ((runCapture [] (polls.map (fun p => CaptureEv.poll p.1 p.2))).2.countP
        (fun ev => ev.elemId == eid) ≤ 1)
    ∧ (captureStep seen (CaptureEv.layerRendered pg elems)).2
        = elems.map (captureAnnotationData pg) := by
  refine ⟨?_, rfl⟩
  simpa using runCapture_poll_count eid polls []

